import Mathlib

/-!
Shallow embedding of the trip-duration prediction pipeline of
src/deployscript.py: the schema contract (`columns`), the validation gate
(`validate_input_data`), the datetime conversion (`toDatetimeCols`), the
feature deriver (`feature_extraction`), the preprocessor (`preprocess`) and
the prediction endpoint (`predict`).
-/

/-- A calendar timestamp, as produced by `pd.to_datetime` from the
ISO `YYYY-MM-DD HH:MM:SS` layout used by this API's clients. -/
structure Timestamp where
  year : Nat
  month : Nat
  day : Nat
  hour : Nat
  minute : Nat
  second : Nat
deriving DecidableEq

/-- Days since the Unix epoch 1970-01-01 of a civil date (proleptic
Gregorian); `/` on `Int` is floor division for positive divisors, which is
what the standard civil-from-days computation needs. -/
def daysFromCivil (t : Timestamp) : Int :=
  let y : Int := if t.month ≤ 2 then (t.year : Int) - 1 else (t.year : Int)
  let m : Int := (t.month : Int)
  let d : Int := (t.day : Int)
  let era : Int := y / 400
  let yoe : Int := y - era * 400
  let doy : Int := (153 * (if 2 < m then m - 3 else m + 9) + 2) / 5 + d - 1
  let doe : Int := yoe * 365 + yoe / 4 - yoe / 100 + doy
  era * 146097 + doe - 719468

/-- Day of week with Monday = 0, the convention of pandas
`Series.dt.dayofweek` (1970-01-01 was a Thursday, hence the offset 3). -/
def dayofweek (t : Timestamp) : Nat :=
  ((daysFromCivil t + 3) % 7).toNat

/-- Length of a month in the Gregorian calendar. -/
def daysInMonth (y m : Nat) : Nat :=
  if m = 2 then
    (if y % 4 = 0 ∧ (y % 100 ≠ 0 ∨ y % 400 = 0) then 29 else 28)
  else if [4, 6, 9, 11].contains m then 30 else 31

/-- pandas timestamps are 64-bit nanosecond counts since the epoch; a parsed
date-time outside that range raises (OutOfBoundsDatetime). -/
def inNsBounds (t : Timestamp) : Bool :=
  let secs : Int := daysFromCivil t * 86400 + (t.hour : Int) * 3600
    + (t.minute : Int) * 60 + (t.second : Int)
  let ns : Int := secs * 1000000000
  decide (-9223372036854775808 ≤ ns) && decide (ns ≤ 9223372036854775807)

/-- Split a character list on a separator character (the groups between the
separators, like `str.split`). -/
def splitOnChar (c : Char) : List Char → List (List Char)
  | [] => [[]]
  | x :: xs =>
    match splitOnChar c xs with
    | [] => [[]]
    | g :: gs => if x = c then [] :: g :: gs else (x :: g) :: gs

/-- Decimal value of a digit list, `none` on a non-digit. -/
def digitsValAux : List Char → Nat → Option Nat
  | [], acc => some acc
  | ch :: rest, acc =>
    if ch.isDigit then digitsValAux rest (acc * 10 + (ch.toNat - 48)) else none

/-- Decimal value of a non-empty digit list. -/
def digitsToNat (l : List Char) : Option Nat :=
  if l.isEmpty then none else digitsValAux l 0

/-- `pd.to_datetime` restricted to the `YYYY-MM-DD HH:MM:SS` layout this
API's clients send: field-wise decimal parse, calendar validity, and the
int64-nanosecond range check. -/
def parseTimestamp (s : String) : Option Timestamp :=
  match splitOnChar ' ' s.data with
  | [ds, ts] =>
    match splitOnChar '-' ds, splitOnChar ':' ts with
    | [ys, mos, das], [hs, mis, ses] =>
      match digitsToNat ys, digitsToNat mos, digitsToNat das,
            digitsToNat hs, digitsToNat mis, digitsToNat ses with
      | some y, some mo, some da, some h, some mi, some se =>
        if 1 ≤ mo ∧ mo ≤ 12 ∧ 1 ≤ da ∧ da ≤ daysInMonth y mo
            ∧ h ≤ 23 ∧ mi ≤ 59 ∧ se ≤ 59 then
          if inNsBounds ⟨y, mo, da, h, mi, se⟩ then some ⟨y, mo, da, h, mi, se⟩
          else none
        else none
      | _, _, _, _, _, _ => none
    | _, _ => none
  | _ => none

/-- A cell of the tabular input: JSON null (also numpy NaN), integer,
fractional number, string, or a parsed timestamp. -/
inductive Value where
  | null
  | int (n : Int)
  | num (q : ℚ)
  | str (s : String)
  | dt (t : Timestamp)
deriving DecidableEq

/-- One input record: an ordered list of key/value pairs (a JSON object). -/
abbrev Rec := List (String × Value)

/-- A pandas DataFrame: ordered columns, each a name with its cells. -/
abbrev Df := List (String × List Value)

/-- The schema contract: the fixed ordered input column list of
deployscript.py. -/
def columns : List String :=
  ["VendorID", "lpep_pickup_datetime", "lpep_dropoff_datetime",
   "store_and_fwd_flag", "RatecodeID", "PULocationID", "DOLocationID",
   "passenger_count", "trip_distance", "fare_amount", "extra", "mta_tax",
   "tip_amount", "tolls_amount", "ehail_fee", "improvement_surcharge",
   "total_amount", "payment_type", "trip_type", "congestion_surcharge"]

/-- `pd.DataFrame(data, columns=columns)` on a list of JSON objects: one
column per contract name in contract order, a record's missing key becomes
null (NaN), keys outside the contract are dropped. -/
def buildDf (recs : List Rec) : Df :=
  columns.map (fun c => (c, recs.map (fun r => ((r.lookup c).getD Value.null))))

/-- The ordered column names of a DataFrame. -/
def dfCols (df : Df) : List String := df.map Prod.fst

/-- The cells of a named column (first match; empty if absent). -/
def getCol (df : Df) (c : String) : List Value := ((df.lookup c).getD [])

/-- Row count of a DataFrame (length of its first column). -/
def nRows (df : Df) : Nat :=
  match df with
  | [] => 0
  | p :: _ => p.2.length

/-- Whether a cell is null/NaN. -/
def Value.isNull : Value → Bool
  | Value.null => true
  | _ => false

/-- Membership of a cell in the value set of the categorical flag. -/
def flagOK : Value → Bool
  | Value.str s => s == "Y" || s == "N"
  | _ => false

/-- ExpectColumnValuesToNotBeNull for one column (fails if absent). -/
def notNullCheck (df : Df) (c : String) : Bool :=
  match df.lookup c with
  | some vs => vs.all (fun v => !v.isNull)
  | none => false

/-- ExpectColumnValuesToBeInSet for store_and_fwd_flag over Y and N. -/
def inSetCheck (df : Df) : Bool :=
  match df.lookup "store_and_fwd_flag" with
  | some vs => vs.all flagOK
  | none => false

/-- ExpectTableColumnsToMatchOrderedList against the schema contract. -/
def orderedCheck (df : Df) : Bool := decide (dfCols df = columns)

/-- The full expectation suite of validate_input_data: one not-null
expectation per contract column, the flag value-set expectation and the
ordered-column-list expectation; every expectation is evaluated and its
outcome recorded. -/
def checkResults (df : Df) : List (String × Bool) :=
  columns.map (fun c => ("not_null_" ++ c, notNullCheck df c))
    ++ [("flag_in_set", inSetCheck df), ("columns_ordered", orderedCheck df)]

/-- Names of the expectations that failed, in suite order. -/
def failedChecks (df : Df) : List String :=
  ((checkResults df).filter (fun p => !p.2)).map Prod.fst

/-- The ValueError raised by validate_input_data: the count of failed
expectations and their identities. -/
structure ValidationError where
  failedCount : Nat
  failed : List String
deriving DecidableEq

/-- validate_input_data of deployscript.py: validate the batch against the
whole suite; on any failure raise an error listing the count and the
identity of every failed expectation, otherwise return True. -/
def validate_input_data (df : Df) : Except ValidationError Bool :=
  if failedChecks df = [] then Except.ok true
  else Except.error ⟨(failedChecks df).length, failedChecks df⟩

/-- `pd.to_datetime` on one cell: parse a string, keep a timestamp,
anything else raises. -/
def parseValue : Value → Option Timestamp
  | Value.str s => parseTimestamp s
  | Value.dt t => some t
  | _ => none

/-- `pd.to_datetime` on a column: all-or-nothing (errors raise). -/
def parseCol : List Value → Option (List Value)
  | [] => some []
  | v :: vs =>
    match parseValue v, parseCol vs with
    | some t, some ts => some (Value.dt t :: ts)
    | _, _ => none

/-- Replace the cells of a named column in place. -/
def setCol (df : Df) (c : String) (vs : List Value) : Df :=
  df.map (fun p => if p.1 = c then (c, vs) else p)

/-- `df[c] = pd.to_datetime(df[c])` for one column. -/
def toDatetimeCol (df : Df) (c : String) : Except String Df :=
  match parseCol (getCol df c) with
  | some vs => Except.ok (setCol df c vs)
  | none => Except.error c

/-- The conversion loop of predict: pickup column first, then dropoff. -/
def toDatetimeCols (df : Df) : Except String Df :=
  match toDatetimeCol df "lpep_pickup_datetime" with
  | Except.error c => Except.error c
  | Except.ok df1 => toDatetimeCol df1 "lpep_dropoff_datetime"

/-- One derived integer column projected from the pickup timestamps. -/
def pickupProj (df : Df) (f : Timestamp → Int) : List Value :=
  (getCol df "lpep_pickup_datetime").map (fun v =>
    match v with
    | Value.dt t => Value.int (f t)
    | _ => Value.null)

/-- Columns dropped by feature_extraction. -/
def dropList : List String :=
  ["ehail_fee", "VendorID", "lpep_pickup_datetime", "lpep_dropoff_datetime"]

/-- feature_extraction of deployscript.py: append the seven integer
pickup-time projections, then drop ehail_fee, VendorID and the two
timestamp columns. -/
def feature_extraction (df : Df) : Df :=
  (df ++ [("pickup_year", pickupProj df (fun t => (t.year : Int))),
          ("pickup_month", pickupProj df (fun t => (t.month : Int))),
          ("pickup_dayofweek", pickupProj df (fun t => (dayofweek t : Int))),
          ("pickup_day", pickupProj df (fun t => (t.day : Int))),
          ("pickup_hour", pickupProj df (fun t => (t.hour : Int))),
          ("pickup_minute", pickupProj df (fun t => (t.minute : Int))),
          ("pickup_second", pickupProj df (fun t => (t.second : Int)))]).filter
    (fun p => !(dropList.contains p.1))

/-- The numerical column list of preprocess. -/
def numerical : List String :=
  ["RatecodeID", "PULocationID", "DOLocationID",
   "passenger_count", "trip_distance", "fare_amount", "extra", "mta_tax",
   "tip_amount", "tolls_amount", "improvement_surcharge", "total_amount",
   "payment_type", "trip_type", "congestion_surcharge",
   "pickup_year", "pickup_month", "pickup_dayofweek", "pickup_day",
   "pickup_hour", "pickup_minute", "pickup_second"]

/-- The categorical column list of preprocess. -/
def categorical : List String := ["store_and_fwd_flag"]

/-- Numeric reading of a cell (columns reaching the scaler are numeric). -/
def toQ : Value → ℚ
  | Value.int n => (n : ℚ)
  | Value.num q => q
  | _ => 0

/-- A named column as exact rationals. -/
def colQ (df : Df) (c : String) : List ℚ := (getCol df c).map toQ

/-- Mean of a column, as computed by StandardScaler.fit on the batch. -/
def meanQ (xs : List ℚ) : ℚ := xs.sum / (xs.length : ℚ)

/-- Population variance (ddof = 0) of a column, as StandardScaler.fit. -/
def varQ (xs : List ℚ) : ℚ :=
  ((xs.map (fun x => (x - meanQ xs) ^ 2)).sum) / (xs.length : ℚ)

/-- One standardized entry: `(x - mean) / scale` with `scale = sqrt(var)`,
where a zero scale is replaced by 1 (sklearn `_handle_zeros_in_scale`). -/
noncomputable def stdEntry (x m v : ℚ) : ℝ :=
  ((x : ℝ) - (m : ℝ)) / (if v = 0 then 1 else Real.sqrt (v : ℝ))

/-- The string carried by a categorical cell (the flag column holds
strings at every reachable call). -/
def vStr : Value → String
  | Value.str s => s
  | _ => ""

/-- Insert into a sorted duplicate-free list. -/
def insertUnique (s : String) : List String → List String
  | [] => [s]
  | x :: xs =>
    match compare s x with
    | Ordering.eq => x :: xs
    | Ordering.lt => s :: x :: xs
    | Ordering.gt => x :: insertUnique s xs

/-- Sorted duplicate-free version of a list (np.unique). -/
def sortedUnique (l : List String) : List String := l.foldr insertUnique []

/-- The category vocabulary OneHotEncoder.fit derives from the batch:
the sorted distinct values of the flag column. -/
def catsOf (df : Df) : List String :=
  sortedUnique ((getCol df "store_and_fwd_flag").map vStr)

/-- numpy element type of the produced matrix. -/
inductive Dtype where
  | float64
  | float32
deriving DecidableEq

/-- A numeric matrix with its numpy element type. -/
structure Mat where
  dtype : Dtype
  rows : List (List ℝ)

/-- Number of columns of a matrix (length of its first row). -/
def Mat.width (m : Mat) : Nat :=
  match m.rows with
  | [] => 0
  | r :: _ => r.length

/-- `preprocessor.fit_transform(X)` of preprocess: fit the scaler and the
one-hot encoder on this very batch, then transform it; each output row is
the standardized numerical block followed by the one-hot block over the
batch-derived vocabulary (float64 before the cast). -/
noncomputable def fitTransform (df : Df) : Mat :=
  ⟨Dtype.float64,
    (List.range (nRows df)).map (fun i =>
      numerical.map (fun c =>
        stdEntry ((colQ df c).getD i 0) (meanQ (colQ df c)) (varQ (colQ df c)))
      ++ (catsOf df).map (fun cat =>
        if vStr ((getCol df "store_and_fwd_flag").getD i Value.null) = cat
        then (1 : ℝ) else 0))⟩

/-- `.astype(d)`: change the element type (values kept exact here). -/
def Mat.astype (m : Mat) (d : Dtype) : Mat := ⟨d, m.rows⟩

/-- preprocess of deployscript.py: fit_transform on the request batch,
then `.astype(float32)`. -/
noncomputable def preprocess (df : Df) : Mat :=
  (fitTransform df).astype Dtype.float32

/-- Modelled from the spec: the trained Model Artifact (model.pkl is a
training product, not part of src). Per the spec it is an opaque fitted
regressor mapping each matrix row to one duration, and a column-width
mismatch against its trained input signature is fatal, never silently
truncated or padded. -/
structure ModelArtifact where
  nFeatures : Nat
  predictRow : List ℝ → ℝ

/-- Modelled from the spec: `model.predict` applies the fitted regressor
row-wise and refuses a matrix whose width differs from the trained input
signature. -/
def modelPredict (m : ModelArtifact) (X : Mat) : Option (List ℝ) :=
  if X.rows.all (fun r => r.length == m.nFeatures) then
    some (X.rows.map m.predictRow)
  else none

/-- The structured failures the predict endpoint can raise. -/
inductive PipelineError where
  | validationError (count : Nat) (failed : List String)
  | parseError (col : String)
  | signatureMismatch (expected : Nat)
deriving DecidableEq

/-- predict of deployscript.py: rebuild the batch against the schema's
column list, validate it, convert the two datetime columns, derive
features, preprocess, and apply the model. -/
noncomputable def predict (m : ModelArtifact) (recs : List Rec) :
    Except PipelineError (List ℝ) :=
  match validate_input_data (buildDf recs) with
  | Except.error e => Except.error (PipelineError.validationError e.failedCount e.failed)
  | Except.ok _ =>
    match toDatetimeCols (buildDf recs) with
    | Except.error c => Except.error (PipelineError.parseError c)
    | Except.ok df2 =>
      match modelPredict m (preprocess (feature_extraction df2)) with
      | some preds => Except.ok preds
      | none => Except.error (PipelineError.signatureMismatch m.nFeatures)

/-- A well-formed single request record (the front end's shape), with
pickup 2024-03-11 14:05:09, a Monday. -/
def recEx : Rec :=
  [("VendorID", Value.int 2),
   ("lpep_pickup_datetime", Value.str "2024-03-11 14:05:09"),
   ("lpep_dropoff_datetime", Value.str "2024-03-11 14:35:09"),
   ("store_and_fwd_flag", Value.str "Y"),
   ("RatecodeID", Value.int 1),
   ("PULocationID", Value.int 74),
   ("DOLocationID", Value.int 168),
   ("passenger_count", Value.int 1),
   ("trip_distance", Value.num 3),
   ("fare_amount", Value.num 6),
   ("extra", Value.num 1),
   ("mta_tax", Value.num 1),
   ("tip_amount", Value.num 0),
   ("tolls_amount", Value.num 0),
   ("ehail_fee", Value.num 0),
   ("improvement_surcharge", Value.num 1),
   ("total_amount", Value.num 9),
   ("payment_type", Value.int 1),
   ("trip_type", Value.int 1),
   ("congestion_surcharge", Value.num 0)]

/-- The same record with the flag N instead of Y. -/
def recExN : Rec :=
  recEx.map (fun p =>
    if p.1 = "store_and_fwd_flag" then (p.1, Value.str "N") else p)

/-- The single-record example batch, rebuilt against the schema. -/
def dfEx : Df := buildDf [recEx]

/-- The example batch after datetime conversion. -/
def df2Ex : Df := (toDatetimeCols dfEx).toOption.getD []

/-- The example batch after feature extraction. -/
def df3Ex : Df := feature_extraction df2Ex

/-- A two-record batch whose flag column contains both Y and N. -/
def dfPair : Df := buildDf [recEx, recExN]

/-- The two-record batch after datetime conversion. -/
def df2Pair : Df := (toDatetimeCols dfPair).toOption.getD []

/-- The two-record batch after feature extraction. -/
def df3Pair : Df := feature_extraction df2Pair

/-- The suite's expectation identities, in suite order. -/
def checkNames : List String :=
  columns.map (fun c => "not_null_" ++ c) ++ ["flag_in_set", "columns_ordered"]

/-- An artifact trained on 24 features (22 numerical plus a two-category
one-hot vocabulary). -/
def mEx24 : ModelArtifact := ⟨24, fun _ => 0⟩

/-- An artifact expecting 23 features, matching the width the code
produces for a one-flag-value batch. -/
def mEx23 : ModelArtifact := ⟨23, fun _ => 0⟩

/-- recEx with its pickup timestamp replaced by an unparseable string. -/
def recBad : Rec :=
  recEx.map (fun p =>
    if p.1 = "lpep_pickup_datetime" then (p.1, Value.str "not-a-date") else p)

/-- recEx with the same key/value mapping but the keys in another order
(the flag and fare keys first). -/
def recExReord : Rec :=
  [("store_and_fwd_flag", Value.str "Y"),
   ("fare_amount", Value.num 6),
   ("VendorID", Value.int 2),
   ("lpep_pickup_datetime", Value.str "2024-03-11 14:05:09"),
   ("lpep_dropoff_datetime", Value.str "2024-03-11 14:35:09"),
   ("RatecodeID", Value.int 1),
   ("PULocationID", Value.int 74),
   ("DOLocationID", Value.int 168),
   ("passenger_count", Value.int 1),
   ("trip_distance", Value.num 3),
   ("extra", Value.num 1),
   ("mta_tax", Value.num 1),
   ("tip_amount", Value.num 0),
   ("tolls_amount", Value.num 0),
   ("ehail_fee", Value.num 0),
   ("improvement_surcharge", Value.num 1),
   ("total_amount", Value.num 9),
   ("payment_type", Value.int 1),
   ("trip_type", Value.int 1),
   ("congestion_surcharge", Value.num 0)]

/-- recEx without the mta_tax key but with an extra unknown key. -/
def recMissing : Rec :=
  (recEx.filter (fun p => p.1 != "mta_tax")) ++ [("unknown_extra", Value.int 7)]

/-- recEx without the mta_tax key and with an out-of-set flag value:
two distinct violations in one record. -/
def recViol : Rec :=
  (recEx.filter (fun p => p.1 != "mta_tax")).map (fun p =>
    if p.1 = "store_and_fwd_flag" then (p.1, Value.str "X") else p)


/-! Helper lemmas. -/

/-- Looking a key up in a keyed map of a name list finds its image. -/
theorem lookup_map_self {β : Type} (g : String → β) :
    ∀ (l : List String) (c : String), c ∈ l →
      (l.map (fun a => (a, g a))).lookup c = some (g c) := by
  intro l
  induction l with
  | nil => intro c hc; cases hc
  | cons a as ih =>
    intro c hc
    simp only [List.map_cons, List.lookup]
    cases hbe : c == a with
    | true =>
      have : c = a := eq_of_beq hbe
      subst this; rfl
    | false =>
      have hne : c ≠ a := by
        intro h; subst h; simp at hbe
      have : c ∈ as := by
        cases List.mem_cons.mp hc with
        | inl h => exact absurd h hne
        | inr h => exact h
      exact ih c this

/-- buildDf unfolded to the keyed-map form lookup_map_self expects. -/
theorem buildDf_eq_keyed (recs : List Rec) :
    buildDf recs =
      columns.map (fun c => (c, recs.map (fun r => ((r.lookup c).getD Value.null)))) :=
  rfl

/-- The column list of a rebuilt batch is always the contract list. -/
theorem dfCols_buildDf (recs : List Rec) : dfCols (buildDf recs) = columns := by
  simp [dfCols, buildDf, List.map_map, Function.comp_def]

/-- Looking up a contract column of a rebuilt batch. -/
theorem lookup_buildDf (recs : List Rec) (c : String) (hc : c ∈ columns) :
    (buildDf recs).lookup c =
      some (recs.map (fun r => ((r.lookup c).getD Value.null))) := by
  rw [buildDf_eq_keyed]
  exact lookup_map_self _ columns c hc

/-- C10: before validation the records are rebuilt against the schema's
fixed column list: the rebuilt batch's columns are exactly the contract's,
in the contract's order, regardless of the input's key order; each contract
column holds each record's value for that key with a missing key becoming
null; the column-order check can therefore never fail, and a record missing
a contract key surfaces as a failed not-null check. Keys outside the
contract are never consulted (the column cells depend only on contract-key
lookups), so extra keys never cause an error. -/
theorem buildDf_normalizes_input (recs : List Rec) :
    dfCols (buildDf recs) = columns ∧
    (∀ c ∈ columns,
      (buildDf recs).lookup c =
        some (recs.map (fun r => ((r.lookup c).getD Value.null)))) ∧
    orderedCheck (buildDf recs) = true ∧
    (∀ rec ∈ recs, ∀ c ∈ columns, rec.lookup c = none →
      ("not_null_" ++ c) ∈ failedChecks (buildDf recs)) := by
  refine ⟨dfCols_buildDf recs, fun c hc => lookup_buildDf recs c hc, ?_, ?_⟩
  · simp [orderedCheck, dfCols_buildDf]
  · intro rec hrec c hc hnone
    have hmem : Value.null ∈ recs.map (fun r => ((r.lookup c).getD Value.null)) :=
      List.mem_map.mpr ⟨rec, hrec, by rw [hnone]; rfl⟩
    have hnn : notNullCheck (buildDf recs) c = false := by
      unfold notNullCheck
      rw [lookup_buildDf recs c hc]
      rw [List.all_eq_false]
      exact ⟨Value.null, hmem, by simp [Value.isNull]⟩
    have hcr : ("not_null_" ++ c, false) ∈ checkResults (buildDf recs) := by
      unfold checkResults
      exact List.mem_append_left _ (List.mem_map.mpr ⟨c, hc, by rw [hnn]⟩)
    unfold failedChecks
    exact List.mem_map.mpr
      ⟨("not_null_" ++ c, false), List.mem_filter.mpr ⟨hcr, by simp⟩, rfl⟩

/-- Witness for buildDf_normalizes_input: a record missing the mta_tax key
and carrying an unknown extra key still yields the contract's columns, the
order check passes, and the missing key is reported as a null violation. -/
theorem buildDf_normalizes_input_witness :
    dfCols (buildDf [recMissing]) = columns ∧
    "not_null_mta_tax" ∈ failedChecks (buildDf [recMissing]) ∧
    orderedCheck (buildDf [recMissing]) = true := by
  obtain ⟨h1, _, h3, h4⟩ := buildDf_normalizes_input [recMissing]
  refine ⟨h1, ?_, h3⟩
  have : ("not_null_" ++ "mta_tax") ∈ failedChecks (buildDf [recMissing]) :=
    h4 recMissing (List.mem_singleton.mpr rfl) "mta_tax" (by decide) (by decide)
  exact this

/-- C9: the matrix the pipeline hands to the inference engine is cast to
32-bit floating point (preprocess ends in astype float32). -/
theorem preprocess_output_dtype_float32 (df : Df) :
    (preprocess df).dtype = Dtype.float32 := rfl

/-- C5: the validation gate evaluates the whole suite (its result list
names every expectation, none skipped), succeeds exactly when no check
failed, and on any violation raises one error whose failed-list is exactly
the failed checks in suite order and whose count is that list's length;
on a validation error the endpoint aborts the whole batch with that error
before any later stage runs. -/
theorem validation_gate_exhaustive :
    (∀ df : Df, (checkResults df).map Prod.fst = checkNames) ∧
    (∀ df : Df, validate_input_data df = Except.ok true ↔ failedChecks df = []) ∧
    (∀ (df : Df) (e : ValidationError), validate_input_data df = Except.error e →
      e.failed = failedChecks df ∧ e.failedCount = (failedChecks df).length ∧
      e.failed ≠ []) ∧
    (∀ (m : ModelArtifact) (recs : List Rec) (e : ValidationError),
      validate_input_data (buildDf recs) = Except.error e →
      predict m recs =
        Except.error (PipelineError.validationError e.failedCount e.failed)) := by
  refine ⟨?_, ?_, ?_, ?_⟩
  · intro df
    simp [checkResults, checkNames, List.map_map, Function.comp_def]
  · intro df
    unfold validate_input_data
    split
    · next h => simp [h]
    · next h => simp [h]
  · intro df e h
    unfold validate_input_data at h
    split at h
    · exact absurd h (by simp)
    · next hne =>
      injection h with h2
      subst h2
      exact ⟨rfl, rfl, hne⟩
  · intro m recs e h
    unfold predict
    rw [h]

/-- Witness for validation_gate_exhaustive: a record that both misses the
mta_tax key and carries flag X makes the gate raise one error listing both
violations with count 2, and the endpoint aborts with it. -/
theorem validation_gate_exhaustive_witness :
    predict mEx24 [recViol] =
      Except.error
        (PipelineError.validationError 2 ["not_null_mta_tax", "flag_in_set"]) := by
  have h : validate_input_data (buildDf [recViol]) =
      Except.error ⟨2, ["not_null_mta_tax", "flag_in_set"]⟩ := rfl
  exact validation_gate_exhaustive.2.2.2 mEx24 [recViol]
    ⟨2, ["not_null_mta_tax", "flag_in_set"]⟩ h

/-- Equal row-wise contract-key lookups give equal per-column lookups. -/
theorem lookups_eq_of_rowmaps_eq :
    ∀ (recs recs2 : List Rec),
      recs.map (fun r => columns.map (fun c => r.lookup c)) =
        recs2.map (fun r => columns.map (fun c => r.lookup c)) →
      ∀ c ∈ columns,
        recs.map (fun r => ((r.lookup c).getD Value.null)) =
          recs2.map (fun r => ((r.lookup c).getD Value.null)) := by
  intro recs
  induction recs with
  | nil =>
    intro recs2 h c _
    cases recs2 with
    | nil => rfl
    | cons r rs => simp at h
  | cons r rs ih =>
    intro recs2 h c hc
    cases recs2 with
    | nil => simp at h
    | cons r2 rs2 =>
      simp only [List.map_cons, List.cons.injEq] at h
      obtain ⟨hhead, htail⟩ := h
      have hc2 : r.lookup c = r2.lookup c := List.map_eq_map_iff.mp hhead c hc
      simp only [List.map_cons, hc2, ih rs2 htail c hc]

/-- Rebuilding a batch depends only on the records' contract-key lookups,
not on the order the keys are listed in. -/
theorem buildDf_eq_of_rowmaps_eq (recs recs2 : List Rec)
    (h : recs.map (fun r => columns.map (fun c => r.lookup c)) =
      recs2.map (fun r => columns.map (fun c => r.lookup c))) :
    buildDf recs = buildDf recs2 := by
  unfold buildDf
  exact List.map_congr_left (fun c hc => by
    rw [lookups_eq_of_rowmaps_eq recs recs2 h c hc])

/-- C3 counterexample: a batch whose record lists the schema's values under
the schema's names but in a different key order passes validation (returns
True), contrary to the claim that the column-order check rejects it. -/
theorem reordered_batch_passes_validation :
    validate_input_data (buildDf [recExReord]) = Except.ok true := rfl

/-- C3 amended: reordering the input's keys (same key-to-value mapping per
record) never changes the rebuilt batch nor the validation outcome, because
predict rebuilds the records against the schema's fixed ordered column list
before validation; in particular an all-valid reordered batch passes. -/
theorem validation_ignores_key_order (recs recs2 : List Rec)
    (h : recs.map (fun r => columns.map (fun c => r.lookup c)) =
      recs2.map (fun r => columns.map (fun c => r.lookup c))) :
    buildDf recs = buildDf recs2 ∧
    validate_input_data (buildDf recs) = validate_input_data (buildDf recs2) := by
  have hb := buildDf_eq_of_rowmaps_eq recs recs2 h
  exact ⟨hb, by rw [hb]⟩

/-- Witness for validation_ignores_key_order: the key-reordered example
record validates exactly like the original record. -/
theorem validation_ignores_key_order_witness :
    validate_input_data (buildDf [recExReord]) =
      validate_input_data (buildDf [recEx]) :=
  (validation_ignores_key_order [recExReord] [recEx] (by decide)).2

/-- C6: on a converted batch of the pipeline's shape (the contract's twenty
columns with parsed pickup timestamps), feature_extraction appends exactly
the seven integer pickup projections - year, month, day-of-week (Monday=0),
day, hour, minute, second - and removes the pickup timestamp, dropoff
timestamp, VendorID and ehail_fee columns, leaving every other column
untouched; and on the example batch with pickup 2024-03-11 14:05:09 the
derived cells are 2024, 3, 0, 11, 14, 5 and 9. -/
theorem feature_extraction_appends_and_drops :
    (∀ (ts : List Timestamp)
        (v1 v3 v4 v5 v6 v7 v8 v9 v10 v11 v12 v13 v14 v15 v16 v17 v18 v19 v20 :
          List Value),
      feature_extraction
        [("VendorID", v1), ("lpep_pickup_datetime", ts.map Value.dt),
         ("lpep_dropoff_datetime", v3), ("store_and_fwd_flag", v4),
         ("RatecodeID", v5), ("PULocationID", v6), ("DOLocationID", v7),
         ("passenger_count", v8), ("trip_distance", v9), ("fare_amount", v10),
         ("extra", v11), ("mta_tax", v12), ("tip_amount", v13),
         ("tolls_amount", v14), ("ehail_fee", v15),
         ("improvement_surcharge", v16), ("total_amount", v17),
         ("payment_type", v18), ("trip_type", v19),
         ("congestion_surcharge", v20)] =
        [("store_and_fwd_flag", v4), ("RatecodeID", v5), ("PULocationID", v6),
         ("DOLocationID", v7), ("passenger_count", v8), ("trip_distance", v9),
         ("fare_amount", v10), ("extra", v11), ("mta_tax", v12),
         ("tip_amount", v13), ("tolls_amount", v14),
         ("improvement_surcharge", v16), ("total_amount", v17),
         ("payment_type", v18), ("trip_type", v19),
         ("congestion_surcharge", v20),
         ("pickup_year", ts.map (fun t => Value.int (t.year : Int))),
         ("pickup_month", ts.map (fun t => Value.int (t.month : Int))),
         ("pickup_dayofweek", ts.map (fun t => Value.int (dayofweek t : Int))),
         ("pickup_day", ts.map (fun t => Value.int (t.day : Int))),
         ("pickup_hour", ts.map (fun t => Value.int (t.hour : Int))),
         ("pickup_minute", ts.map (fun t => Value.int (t.minute : Int))),
         ("pickup_second", ts.map (fun t => Value.int (t.second : Int)))]) ∧
    (getCol df3Ex "pickup_year" = [Value.int 2024] ∧
     getCol df3Ex "pickup_month" = [Value.int 3] ∧
     getCol df3Ex "pickup_dayofweek" = [Value.int 0] ∧
     getCol df3Ex "pickup_day" = [Value.int 11] ∧
     getCol df3Ex "pickup_hour" = [Value.int 14] ∧
     getCol df3Ex "pickup_minute" = [Value.int 5] ∧
     getCol df3Ex "pickup_second" = [Value.int 9]) := by
  constructor
  · intro ts v1 v3 v4 v5 v6 v7 v8 v9 v10 v11 v12 v13 v14 v15 v16 v17 v18 v19 v20
    simp [feature_extraction, pickupProj, getCol, dropList, List.lookup,
      List.map_map, Function.comp_def]
  · exact ⟨by decide, by decide, by decide, by decide, by decide, by decide,
      by decide⟩

/-- Standardizing a one-element column with statistics fitted on that very
column gives 0: the mean is the value itself and the zero scale becomes 1. -/
theorem stdEntry_single (x : ℚ) : stdEntry x (meanQ [x]) (varQ [x]) = 0 := by
  have hm : meanQ [x] = x := by simp [meanQ]
  have hv : varQ [x] = 0 := by simp [varQ, hm]
  rw [hm, hv]
  simp [stdEntry]

/-- The matrix of a one-row batch is one explicit row. -/
theorem preprocess_rows_single (df : Df) (h : nRows df = 1) :
    (preprocess df).rows =
      [numerical.map (fun c =>
        stdEntry ((colQ df c).getD 0 0) (meanQ (colQ df c)) (varQ (colQ df c)))
        ++ (catsOf df).map (fun cat =>
          if vStr ((getCol df "store_and_fwd_flag").getD 0 Value.null) = cat
          then (1 : ℝ) else 0)] := by
  unfold preprocess Mat.astype fitTransform
  rw [h]
  rfl

/-- Width of the produced matrix on any non-empty batch: the number of
numerical columns plus the size of the batch-fitted vocabulary. -/
theorem preprocess_width_eq (df : Df) (h : 0 < nRows df) :
    (preprocess df).width = numerical.length + (catsOf df).length := by
  unfold preprocess Mat.astype fitTransform Mat.width
  cases hn : nRows df with
  | zero => rw [hn] at h; exact absurd h (by simp)
  | succ n =>
    rw [List.range_succ_eq_map]
    simp

/-- C1 (evaluating the code at the failing input): preprocess fits the
scaler and encoder on the request batch itself, so on the example one-record
request every standardized numerical entry collapses to 0 - the batch mean
is the value itself and the zero scale is replaced by 1 - instead of
applying means and scales fixed at training time. -/
theorem preprocess_refit_degenerate_single_row :
    (preprocess df3Ex).rows = [List.replicate 22 (0 : ℝ) ++ [1]] := by
  have hsingle : ∀ c ∈ numerical, colQ df3Ex c = [(colQ df3Ex c).getD 0 0] := by
    decide
  rw [preprocess_rows_single df3Ex rfl]
  have hzero : ∀ c ∈ numerical,
      stdEntry ((colQ df3Ex c).getD 0 0) (meanQ (colQ df3Ex c))
        (varQ (colQ df3Ex c)) = 0 := by
    intro c hc
    rw [hsingle c hc]
    simp only [List.getD_cons_zero]
    exact stdEntry_single _
  have hnum : numerical.map (fun c =>
      stdEntry ((colQ df3Ex c).getD 0 0) (meanQ (colQ df3Ex c))
        (varQ (colQ df3Ex c))) = List.replicate 22 (0 : ℝ) := by
    rw [List.map_congr_left hzero, List.map_const',
      show numerical.length = 22 from rfl]
  have hcat : (catsOf df3Ex).map (fun cat =>
      if vStr ((getCol df3Ex "store_and_fwd_flag").getD 0 Value.null) = cat
      then (1 : ℝ) else 0) = [1] := by
    rw [show catsOf df3Ex = ["Y"] from rfl]
    simp only [List.map_cons, List.map_nil]
    rw [if_pos
      (show vStr ((getCol df3Ex "store_and_fwd_flag").getD 0 Value.null) = "Y"
        from rfl)]
  rw [hnum, hcat]

/-- C2 (evaluating the code at the failing input): the one-hot vocabulary
is fitted on the request batch, so the matrix width is 22 plus the number
of distinct flag values that happen to occur - 23 for the one-record batch
(flag Y only), 24 for the two-record batch carrying Y and N - rather than
a fixed 22 plus the training vocabulary size independent of the batch. -/
theorem preprocess_width_varies_with_batch :
    (preprocess df3Ex).width = 23 ∧ (preprocess df3Pair).width = 24 := by
  constructor
  · rw [preprocess_width_eq df3Ex (by decide)]
    decide
  · rw [preprocess_width_eq df3Pair (by decide)]
    decide

/-- C4: whenever the pipeline reaches the model with a processed matrix some
row of which does not match the artifact's trained input width, predict
raises the signature-mismatch error and never returns a prediction - no
truncation or padding. -/
theorem signature_mismatch_raises (m : ModelArtifact) (recs : List Rec)
    (df2 : Df)
    (hval : validate_input_data (buildDf recs) = Except.ok true)
    (hparse : toDatetimeCols (buildDf recs) = Except.ok df2)
    (hmis : ((preprocess (feature_extraction df2)).rows.all
      (fun r => r.length == m.nFeatures)) = false) :
    predict m recs = Except.error (PipelineError.signatureMismatch m.nFeatures) ∧
    ∀ preds, predict m recs ≠ Except.ok preds := by
  have hp : predict m recs =
      Except.error (PipelineError.signatureMismatch m.nFeatures) := by
    unfold predict
    rw [hval, hparse]
    have hnone : modelPredict m (preprocess (feature_extraction df2)) = none := by
      unfold modelPredict
      rw [hmis]
      rfl
    simp only [hnone]
  exact ⟨hp, fun preds => by rw [hp]; simp⟩

/-- Witness for signature_mismatch_raises: the one-record example batch
produces a 23-wide matrix (its batch-fitted vocabulary has one category);
against an artifact trained on 24 features predict raises the
signature-mismatch error. -/
theorem signature_mismatch_raises_witness :
    predict mEx24 [recEx] =
      Except.error (PipelineError.signatureMismatch 24) := by
  have hmis : ((preprocess (feature_extraction df2Ex)).rows.all
      (fun r => r.length == mEx24.nFeatures)) = false := by
    rw [preprocess_rows_single (feature_extraction df2Ex) (by decide)]
    simp only [List.all_cons, List.all_nil, Bool.and_true, List.length_append,
      List.length_map]
    decide
  exact (signature_mismatch_raises mEx24 [recEx] df2Ex rfl rfl hmis).1

/-- C7 amended: a batch whose pickup column fails datetime parsing makes
predict abort at the conversion step, before feature_extraction runs, with
the parse error naming the pickup column (the validation gate itself having
passed the batch). -/
theorem malformed_timestamp_fails_before_derivation (m : ModelArtifact)
    (recs : List Rec)
    (hval : validate_input_data (buildDf recs) = Except.ok true)
    (hbad : parseCol (getCol (buildDf recs) "lpep_pickup_datetime") = none) :
    predict m recs =
      Except.error (PipelineError.parseError "lpep_pickup_datetime") := by
  unfold predict
  rw [hval]
  have hconv : toDatetimeCols (buildDf recs) =
      Except.error "lpep_pickup_datetime" := by
    unfold toDatetimeCols toDatetimeCol
    rw [hbad]
  rw [hconv]

/-- Witness for malformed_timestamp_fails_before_derivation: the example
record with pickup "not-a-date" validates, then predict raises the parse
error for the pickup column. -/
theorem malformed_timestamp_fails_before_derivation_witness :
    predict mEx24 [recBad] =
      Except.error (PipelineError.parseError "lpep_pickup_datetime") :=
  malformed_timestamp_fails_before_derivation mEx24 [recBad] rfl rfl

/-- C7 counterexample: on the batch with the unparseable pickup value
"not-a-date" the validation gate succeeds (returns True), and the pipeline's
failure is the datetime parse error, not a validation error - refuting the
claim that such a batch fails with a validation error. -/
theorem malformed_timestamp_not_a_validation_error :
    validate_input_data (buildDf [recBad]) = Except.ok true ∧
    predict mEx24 [recBad] =
      Except.error (PipelineError.parseError "lpep_pickup_datetime") := by
  constructor
  · rfl
  · unfold predict
    rw [show validate_input_data (buildDf [recBad]) = Except.ok true from rfl]
    rw [show toDatetimeCols (buildDf [recBad]) =
      Except.error "lpep_pickup_datetime" from rfl]

/-- Row count is preserved from the raw records through rebuild, datetime
conversion and feature extraction. -/
theorem nRows_pipeline (recs : List Rec) (df2 : Df)
    (h : toDatetimeCols (buildDf recs) = Except.ok df2) :
    nRows (feature_extraction df2) = recs.length := by
  unfold toDatetimeCols at h
  split at h
  · exact absurd h (by simp)
  · next df1 heq1 =>
    unfold toDatetimeCol at heq1 h
    split at heq1
    · next vs hvs =>
      injection heq1 with h1
      subst h1
      split at h
      · next vs2 hvs2 =>
        injection h with h2
        subst h2
        simp [buildDf, columns, setCol, feature_extraction, dropList,
          pickupProj, getCol, nRows, List.lookup]
      · exact absurd h (by simp)
    · exact absurd heq1 (by simp)

/-- C8: whenever predict returns predictions, there are exactly as many as
input records, and they are the model's row-wise outputs on the processed
matrix, whose i-th row comes from the i-th input record (each stage maps
rows in order and preserves the row count). -/
theorem predict_preserves_row_count_and_order (m : ModelArtifact)
    (recs : List Rec) (preds : List ℝ)
    (h : predict m recs = Except.ok preds) :
    preds.length = recs.length ∧
    ∃ df2, toDatetimeCols (buildDf recs) = Except.ok df2 ∧
      preds = (preprocess (feature_extraction df2)).rows.map m.predictRow ∧
      (preprocess (feature_extraction df2)).rows.length = recs.length := by
  unfold predict at h
  split at h
  · simp at h
  · split at h
    · simp at h
    · next df2 heq2 =>
      split at h
      · next preds2 heq3 =>
        injection h with h2
        subst h2
        have hrl : (preprocess (feature_extraction df2)).rows.length =
            recs.length := by
          have hn := nRows_pipeline recs df2 heq2
          unfold preprocess Mat.astype fitTransform
          simp [hn]
        unfold modelPredict at heq3
        split at heq3
        · injection heq3 with h3
          refine ⟨?_, df2, heq2, h3.symm, hrl⟩
          rw [← h3]
          simp [hrl]
        · simp at heq3
      · simp at h

/-- On the example one-record batch, an artifact trained on 23 features
(and returning 0 on every row) makes predict return one prediction. -/
theorem predict_example_ok : predict mEx23 [recEx] = Except.ok [(0 : ℝ)] := by
  unfold predict
  rw [show validate_input_data (buildDf [recEx]) = Except.ok true from rfl]
  rw [show toDatetimeCols (buildDf [recEx]) = Except.ok df2Ex from rfl]
  have hone : modelPredict mEx23 (preprocess (feature_extraction df2Ex)) =
      some [(0 : ℝ)] := by
    unfold modelPredict
    rw [preprocess_rows_single (feature_extraction df2Ex) (by decide)]
    simp only [List.all_cons, List.all_nil, Bool.and_true, List.length_append,
      List.length_map, List.map_cons, List.map_nil]
    rw [show ((numerical.length +
      (catsOf (feature_extraction df2Ex)).length == mEx23.nFeatures)) = true
      from by decide]
    rfl
  simp only [hone]

/-- Witness for predict_preserves_row_count_and_order: the example
single-record request yields exactly one prediction. -/
theorem predict_preserves_row_count_and_order_witness :
    ([(0 : ℝ)]).length = ([recEx] : List Rec).length :=
  (predict_preserves_row_count_and_order mEx23 [recEx] [0] predict_example_ok).1
